import Mathlib

/- Verification of the user-CRUD surface of the Zain-FA23-BSE-047 repository:
   the three database-backed routers of CRUD-Operations-Using-Multiple-Databases
   (routes/sqliteRoutes.js, routes/mysqlRoutes.js, routes/mongoRoutes.js,
   mounted by server.js under the /api/sqlite, /api/mysql and /api/mongo
   path roots) and the in-memory Mini-Online-Store-API user controller
   (controllers/userController.js). -/

namespace MultiDB

/-- Request body of a POST or PUT, as parsed by express.json(): each of the
three expected fields is either absent (undefined in JS) or a string. -/
structure Body where
  name : Option String
  email : Option String
  phone : Option String
deriving DecidableEq, Repr

/-- Row of the users table / document of the users collection.  Ids are the
backend-native identifiers abstracted as naturals (AUTO_INCREMENT for MySQL,
AUTOINCREMENT rowid for SQLite, the generation index of the ObjectId for
MongoDB); createdAt and updatedAt are abstract instants. -/
structure UserRow where
  id : Nat
  name : String
  email : String
  phone : String
  createdAt : Nat
  updatedAt : Nat
deriving DecidableEq, Repr

/-- State of one backing store: the stored rows in insertion order together
with the next id the backend will assign. -/
structure Store where
  rows : List UserRow
  nextId : Nat
deriving DecidableEq, Repr

/-- Fresh store right after connectSQLite / connectMySQL / the mongoose model
created the empty table or collection; auto-increment counters start at 1. -/
def Store.init : Store := ⟨[], 1⟩

/-- Auto-increment invariant of a store: every already-assigned id is below
the next id the backend will hand out.  It holds for the fresh store and is
preserved by every handler. -/
def Store.WF (s : Store) : Prop := ∀ u ∈ s.rows, u.id < s.nextId

/-- Payload carried in the data field of a JSON envelope. -/
inductive Payload where
  /-- a full user row (mongo create, get-one and update; sqlite and mysql
  get-one, which re-read the row) -/
  | user (u : UserRow)
  /-- the echoed request fields of the sqlite and mysql create and update
  responses, which rebuild the object from the request instead of re-reading
  the stored row (so no timestamps appear) -/
  | fields (id : Nat) (name email phone : String)
  /-- a list of rows (the list-all endpoints) -/
  | users (l : List UserRow)
deriving DecidableEq, Repr

/-- JSON envelope sent back to the client, tagged with the HTTP status code.
count is an Option because these handlers never set a count field; a none
there models its absence from the serialized JSON. -/
structure Response where
  status : Nat
  success : Bool
  data : Option Payload
  message : Option String
  count : Option Nat
deriving DecidableEq, Repr

/-- Ordering used by the list endpoints: newest created first.  This is
ORDER BY created_at DESC for sqlite and mysql and .sort with createdAt -1
for mongo. -/
def createdDesc (a b : UserRow) : Prop := b.createdAt ≤ a.createdAt

instance : DecidableRel createdDesc := fun a b => Nat.decLe b.createdAt a.createdAt

instance : IsTotal UserRow createdDesc :=
  ⟨fun a b => (Nat.le_total b.createdAt a.createdAt).elim Or.inl Or.inr⟩

instance : IsTrans UserRow createdDesc :=
  ⟨fun _ _ _ hab hbc => Nat.le_trans hbc hab⟩

/-- Result sequence of SELECT * FROM users ORDER BY created_at DESC
(respectively MongoUser.find().sort with createdAt -1). -/
def sortByCreatedDesc (l : List UserRow) : List UserRow :=
  List.insertionSort createdDesc l

/-- Row transformation performed by UPDATE users SET name = ?, email = ?,
phone = ?, updated_at = CURRENT_TIMESTAMP WHERE id = ? (sqlite), by the same
statement plus the schema-level ON UPDATE CURRENT_TIMESTAMP (mysql), and by
findByIdAndUpdate with a full payload under schema timestamps (mongo). -/
def applyUpdate (id : Nat) (n e p : String) (now : Nat) (u : UserRow) : UserRow :=
  if u.id == id then { u with name := n, email := e, phone := p, updatedAt := now } else u

/-- Stored field values of a row apart from updatedAt, used to state that two
stores agree except possibly on update timestamps. -/
structure Snapshot where
  id : Nat
  name : String
  email : String
  phone : String
  createdAt : Nat
deriving DecidableEq, Repr

/-- Projection of a row to its updatedAt-independent part. -/
def UserRow.snapshot (u : UserRow) : Snapshot :=
  ⟨u.id, u.name, u.email, u.phone, u.createdAt⟩

end MultiDB

namespace MultiDB.SqliteRoutes

open MultiDB

/-- POST /users of routes/sqliteRoutes.js.  The handler destructures name,
email and phone from the body with no validation and binds them into the
INSERT.  better-sqlite3 refuses to bind an undefined value, so an absent
field makes stmt.run throw before any write and the catch answers 500; when
all three fields are present (empty strings included) the row is inserted
and answered 201 with the echoed fields and lastInsertRowid. -/
def createUser (b : Body) (now : Nat) (s : Store) : Store × Response :=
  match b.name, b.email, b.phone with
  | some n, some e, some p =>
      (⟨s.rows ++ [⟨s.nextId, n, e, p, now, now⟩], s.nextId + 1⟩,
       ⟨201, true, some (.fields s.nextId n e p), none, none⟩)
  | _, _, _ =>
      (s, ⟨500, false, none, some "Too few parameter values were provided", none⟩)

/-- GET /users of routes/sqliteRoutes.js: always 200 with the rows ordered
newest first; the envelope has success and data only, no count. -/
def getUsers (s : Store) : Store × Response :=
  (s, ⟨200, true, some (.users (sortByCreatedDesc s.rows)), none, none⟩)

/-- GET /users/:id of routes/sqliteRoutes.js: SELECT the row by id, 404 with
a message when no row matches. -/
def getUser (id : Nat) (s : Store) : Store × Response :=
  match s.rows.find? (fun u => u.id == id) with
  | some u => (s, ⟨200, true, some (.user u), none, none⟩)
  | none => (s, ⟨404, false, none, some "User not found", none⟩)

/-- PUT /users/:id of routes/sqliteRoutes.js: no validation; an absent body
field makes stmt.run throw (500); result.changes counts the rows matched by
the WHERE clause, and 0 matched rows gives 404; otherwise the matched row is
rewritten (updated_at refreshed by the SET clause) and the echoed fields are
returned. -/
def updateUser (id : Nat) (b : Body) (now : Nat) (s : Store) : Store × Response :=
  match b.name, b.email, b.phone with
  | some n, some e, some p =>
      if s.rows.any (fun u => u.id == id) then
        (⟨s.rows.map (applyUpdate id n e p now), s.nextId⟩,
         ⟨200, true, some (.fields id n e p), none, none⟩)
      else (s, ⟨404, false, none, some "User not found", none⟩)
  | _, _, _ =>
      (s, ⟨500, false, none, some "Too few parameter values were provided", none⟩)

/-- DELETE /users/:id of routes/sqliteRoutes.js: result.changes of 0 gives
404, otherwise the matching row is removed and a success message returned. -/
def deleteUser (id : Nat) (s : Store) : Store × Response :=
  if s.rows.any (fun u => u.id == id) then
    (⟨s.rows.filter (fun u => !(u.id == id)), s.nextId⟩,
     ⟨200, true, none, some "User deleted successfully", none⟩)
  else (s, ⟨404, false, none, some "User not found", none⟩)

end MultiDB.SqliteRoutes

namespace MultiDB.MysqlRoutes

open MultiDB

/-- POST /users of routes/mysqlRoutes.js.  Same shape as the sqlite route: no
validation; mysql2 rejects undefined bind parameters, so an absent field
makes pool.execute throw before any write (500); present fields are inserted
and answered 201 with the echoed fields and insertId. -/
def createUser (b : Body) (now : Nat) (s : Store) : Store × Response :=
  match b.name, b.email, b.phone with
  | some n, some e, some p =>
      (⟨s.rows ++ [⟨s.nextId, n, e, p, now, now⟩], s.nextId + 1⟩,
       ⟨201, true, some (.fields s.nextId n e p), none, none⟩)
  | _, _, _ =>
      (s, ⟨500, false, none, some "Bind parameters must not contain undefined", none⟩)

/-- GET /users of routes/mysqlRoutes.js: always 200 with rows ordered newest
first; success and data only, no count. -/
def getUsers (s : Store) : Store × Response :=
  (s, ⟨200, true, some (.users (sortByCreatedDesc s.rows)), none, none⟩)

/-- GET /users/:id of routes/mysqlRoutes.js: row by id, 404 when the result
set is empty. -/
def getUser (id : Nat) (s : Store) : Store × Response :=
  match s.rows.find? (fun u => u.id == id) with
  | some u => (s, ⟨200, true, some (.user u), none, none⟩)
  | none => (s, ⟨404, false, none, some "User not found", none⟩)

/-- PUT /users/:id of routes/mysqlRoutes.js: no validation; an absent field
makes pool.execute throw (500); the pool is opened with the FOUND_ROWS
client flag, so affectedRows counts matched rows and 0 gives 404; otherwise
the matched row is rewritten (the schema refreshes updated_at on change) and
the echoed fields returned. -/
def updateUser (id : Nat) (b : Body) (now : Nat) (s : Store) : Store × Response :=
  match b.name, b.email, b.phone with
  | some n, some e, some p =>
      if s.rows.any (fun u => u.id == id) then
        (⟨s.rows.map (applyUpdate id n e p now), s.nextId⟩,
         ⟨200, true, some (.fields id n e p), none, none⟩)
      else (s, ⟨404, false, none, some "User not found", none⟩)
  | _, _, _ =>
      (s, ⟨500, false, none, some "Bind parameters must not contain undefined", none⟩)

/-- DELETE /users/:id of routes/mysqlRoutes.js: affectedRows of 0 gives 404,
otherwise the matching row is removed and a success message returned. -/
def deleteUser (id : Nat) (s : Store) : Store × Response :=
  if s.rows.any (fun u => u.id == id) then
    (⟨s.rows.filter (fun u => !(u.id == id)), s.nextId⟩,
     ⟨200, true, none, some "User deleted successfully", none⟩)
  else (s, ⟨404, false, none, some "User not found", none⟩)

end MultiDB.MysqlRoutes

namespace MultiDB.MongoRoutes

open MultiDB

/-- Body of the 503 answered by the availability middleware at the top of
routes/mongoRoutes.js. -/
def unavailable : Response :=
  ⟨503, false, none,
   some "MongoDB is not running. Please install & start MongoDB, then restart the server.",
   none⟩

/-- Availability middleware (router.use at the top of routes/mongoRoutes.js):
when isMongoConnected() is false, every request to this router is answered
503 before the route handler runs; otherwise the handler runs. -/
def available (connected : Bool) (handler : Store → Store × Response) (s : Store) :
    Store × Response :=
  if connected then handler s else (s, unavailable)

/-- POST /users of routes/mongoRoutes.js, behind the availability middleware.
The mongoose schema marks name, email and phone required (a String required
validator passes only on a present, nonempty value), so a missing or empty
field makes user.save() reject with a ValidationError and the catch answers
500 without any write; otherwise the document is stored with timestamps and
answered 201 with the saved document. -/
def createUser (connected : Bool) (b : Body) (now : Nat) (s : Store) : Store × Response :=
  available connected
    (fun s =>
      match b.name, b.email, b.phone with
      | some n, some e, some p =>
          if n == "" || e == "" || p == "" then
            (s, ⟨500, false, none, some "User validation failed", none⟩)
          else
            (⟨s.rows ++ [⟨s.nextId, n, e, p, now, now⟩], s.nextId + 1⟩,
             ⟨201, true, some (.user ⟨s.nextId, n, e, p, now, now⟩), none, none⟩)
      | _, _, _ => (s, ⟨500, false, none, some "User validation failed", none⟩)) s

/-- GET /users of routes/mongoRoutes.js, behind the availability middleware:
always 200 with documents sorted newest first; success and data only, no
count. -/
def getUsers (connected : Bool) (s : Store) : Store × Response :=
  available connected
    (fun s => (s, ⟨200, true, some (.users (sortByCreatedDesc s.rows)), none, none⟩)) s

/-- GET /users/:id of routes/mongoRoutes.js, behind the availability
middleware: findById, 404 with a message when no document matches. -/
def getUser (connected : Bool) (id : Nat) (s : Store) : Store × Response :=
  available connected
    (fun s =>
      match s.rows.find? (fun u => u.id == id) with
      | some u => (s, ⟨200, true, some (.user u), none, none⟩)
      | none => (s, ⟨404, false, none, some "User not found", none⟩)) s

/-- Row transformation of findByIdAndUpdate applied to the document whose id
matches: mongoose strips undefined fields from the update document, so a
present field is set and an absent one kept, and the schema timestamps
refresh updatedAt. -/
def applySet (id : Nat) (b : Body) (now : Nat) (v : UserRow) : UserRow :=
  if v.id == id then
    { v with name := b.name.getD v.name, email := b.email.getD v.email,
             phone := b.phone.getD v.phone, updatedAt := now }
  else v

/-- PUT /users/:id of routes/mongoRoutes.js, behind the availability
middleware: findByIdAndUpdate with runValidators and new:true.  Mongoose
strips undefined fields from the update document and runs the required
validator on the fields that remain, so a present-but-empty field rejects
with 500; when no document has the id the route answers 404; otherwise the
matched document gets the supplied fields, timestamps refresh updatedAt, and
the updated document is returned. -/
def updateUser (connected : Bool) (id : Nat) (b : Body) (now : Nat) (s : Store) :
    Store × Response :=
  available connected
    (fun s =>
      if (b.name.getD "x" == "") || (b.email.getD "x" == "") || (b.phone.getD "x" == "") then
        (s, ⟨500, false, none, some "Validation failed", none⟩)
      else
        match s.rows.find? (fun u => u.id == id) with
        | some u =>
            (⟨s.rows.map (applySet id b now), s.nextId⟩,
             ⟨200, true, some (.user (applySet id b now u)), none, none⟩)
        | none => (s, ⟨404, false, none, some "User not found", none⟩)) s

/-- DELETE /users/:id of routes/mongoRoutes.js, behind the availability
middleware: findByIdAndDelete, 404 when no document matches, otherwise the
document is removed and a success message returned. -/
def deleteUser (connected : Bool) (id : Nat) (s : Store) : Store × Response :=
  available connected
    (fun s =>
      if s.rows.any (fun u => u.id == id) then
        (⟨s.rows.filter (fun u => !(u.id == id)), s.nextId⟩,
         ⟨200, true, none, some "User deleted successfully", none⟩)
      else (s, ⟨404, false, none, some "User not found", none⟩)) s

end MultiDB.MongoRoutes

namespace MultiDB

/-- Abstract request to one backend router: the five CRUD operations with
their inputs; now is the instant the backend would stamp into timestamps. -/
inductive Op where
  | create (b : Body) (now : Nat)
  | listAll
  | getOne (id : Nat)
  | updateOne (id : Nat) (b : Body) (now : Nat)
  | deleteOne (id : Nat)
deriving DecidableEq, Repr

/-- Dispatch of one operation through the sqlite router. -/
def SqliteRoutes.handle (op : Op) (s : Store) : Store × Response :=
  match op with
  | .create b now => SqliteRoutes.createUser b now s
  | .listAll => SqliteRoutes.getUsers s
  | .getOne id => SqliteRoutes.getUser id s
  | .updateOne id b now => SqliteRoutes.updateUser id b now s
  | .deleteOne id => SqliteRoutes.deleteUser id s

/-- Dispatch of one operation through the mysql router. -/
def MysqlRoutes.handle (op : Op) (s : Store) : Store × Response :=
  match op with
  | .create b now => MysqlRoutes.createUser b now s
  | .listAll => MysqlRoutes.getUsers s
  | .getOne id => MysqlRoutes.getUser id s
  | .updateOne id b now => MysqlRoutes.updateUser id b now s
  | .deleteOne id => MysqlRoutes.deleteUser id s

/-- Dispatch of one operation through the mongo router, availability
middleware included. -/
def MongoRoutes.handle (connected : Bool) (op : Op) (s : Store) : Store × Response :=
  match op with
  | .create b now => MongoRoutes.createUser connected b now s
  | .listAll => MongoRoutes.getUsers connected s
  | .getOne id => MongoRoutes.getUser connected id s
  | .updateOne id b now => MongoRoutes.updateUser connected id b now s
  | .deleteOne id => MongoRoutes.deleteUser connected id s

/-- Whole-process state wired by server.js: one independent store per mounted
router plus the isMongoConnected flag set at startup. -/
structure AppState where
  mongoConnected : Bool
  mongo : Store
  mysql : Store
  sqlite : Store
deriving DecidableEq, Repr

/-- Path root a request is sent to: /api/mongo, /api/mysql or /api/sqlite. -/
inductive Backend where
  | mongo
  | mysql
  | sqlite
deriving DecidableEq, Repr

/-- Request dispatch of server.js: each path root routes to its own router,
which touches only its own store. -/
def appHandle (b : Backend) (op : Op) (st : AppState) : AppState × Response :=
  match b with
  | .mongo =>
      let r := MongoRoutes.handle st.mongoConnected op st.mongo
      ({ st with mongo := r.1 }, r.2)
  | .mysql =>
      let r := MysqlRoutes.handle op st.mysql
      ({ st with mysql := r.1 }, r.2)
  | .sqlite =>
      let r := SqliteRoutes.handle op st.sqlite
      ({ st with sqlite := r.1 }, r.2)

end MultiDB

namespace MiniStore

/-- User record of the Mini Online Store dummy data: no phone, a role. -/
structure MUser where
  id : Nat
  name : String
  email : String
  role : String
deriving DecidableEq, Repr

/-- Envelope of the user controller responses, tagged with the status code. -/
structure MResponse where
  status : Nat
  success : Bool
  data : Option MUser
  message : Option String
deriving DecidableEq, Repr

/-- Seed users array of controllers/userController.js. -/
def initialUsers : List MUser :=
  [⟨1, "Alice Johnson", "alice@example.com", "admin"⟩,
   ⟨2, "Bob Smith", "bob@example.com", "customer"⟩,
   ⟨3, "Charlie Lee", "charlie@example.com", "customer"⟩]

/-- JavaScript falsiness of an optional string field: undefined and the
empty string are falsy, every other string is truthy. -/
def falsy : Option String → Bool
  | none => true
  | some s => s == ""

/-- Whitespace skipped by JavaScript parseInt before the number: the
StrWhiteSpace characters, that is tab, LF, VT, FF, CR, space, NBSP, the
Ogham space mark, the Unicode space separators U+2000 to U+200A, the line
and paragraph separators, the narrow no-break, medium mathematical and
ideographic spaces, and the BOM. -/
def jsWhitespace (c : Char) : Bool :=
  c.val == 0x09 || c.val == 0x0a || c.val == 0x0b || c.val == 0x0c ||
  c.val == 0x0d || c.val == 0x20 || c.val == 0xa0 || c.val == 0x1680 ||
  (0x2000 ≤ c.val && c.val ≤ 0x200a) || c.val == 0x2028 || c.val == 0x2029 ||
  c.val == 0x202f || c.val == 0x205f || c.val == 0x3000 || c.val == 0xfeff

/-- parseInt(s, 10) of JavaScript on a route parameter: skip leading
whitespace, read an optional sign and then the longest run of decimal
digits; none models NaN (no digits found). -/
def parseIntJs (s : String) : Option Int :=
  let cs := s.data.dropWhile jsWhitespace
  let signRest : Int × List Char :=
    match cs with
    | '-' :: r => (-1, r)
    | '+' :: r => (1, r)
    | r => (1, r)
  let ds := signRest.2.takeWhile Char.isDigit
  if ds.isEmpty then none
  else some (signRest.1 * Int.ofNat (ds.foldl (fun acc c => acc * 10 + (c.toNat - 48)) 0))

/-- getUserById of controllers/userController.js: parseInt the :id route
parameter, linear find over the array by strict equality (NaN is equal to
nothing), then 200 with the user or 404 with a message; no other outcome
exists in the handler. -/
def getUserById (idParam : String) (users : List MUser) : MResponse :=
  match parseIntJs idParam with
  | some n =>
      match users.find? (fun u => (u.id : Int) == n) with
      | some u => ⟨200, true, some u, none⟩
      | none => ⟨404, false, none, some ("User with ID " ++ toString n ++ " not found.")⟩
  | none => ⟨404, false, none, some "User with ID NaN not found."⟩

/-- createUser of controllers/userController.js: 400 when name or email is
falsy; otherwise a new user with id computed as users.length + 1 and role
defaulted to customer is pushed onto the array and answered 201.  No check
against already-stored emails is made anywhere in the handler. -/
def createUser (name email role : Option String) (users : List MUser) :
    List MUser × MResponse :=
  if falsy name || falsy email then
    (users,
     ⟨400, false, none,
      some "Validation Error – \"name\" and \"email\" are required fields."⟩)
  else
    (users ++ [⟨users.length + 1, name.getD "", email.getD "",
                if falsy role then "customer" else role.getD "customer"⟩],
     ⟨201, true,
      some ⟨users.length + 1, name.getD "", email.getD "",
            if falsy role then "customer" else role.getD "customer"⟩,
      some "User created successfully."⟩)

end MiniStore

namespace MultiDB

/-- Supporting lemma: find? skips an initial block on which the predicate is
everywhere false. -/
theorem find?_append_right {l₁ l₂ : List UserRow} {p : UserRow → Bool}
    (h : ∀ x ∈ l₁, p x = false) : (l₁ ++ l₂).find? p = l₂.find? p := by
  rw [List.find?_append, List.find?_eq_none.mpr (fun x hx => by simp [h x hx]),
    Option.none_or]

/-- Supporting lemma: the SQL update row transformation never changes ids. -/
theorem applyUpdate_id (id : Nat) (n e p : String) (now : Nat) (u : UserRow) :
    (applyUpdate id n e p now u).id = u.id := by
  unfold applyUpdate; split <;> rfl

/-- Supporting lemma: the SQL update row transformation never changes
creation timestamps. -/
theorem applyUpdate_createdAt (id : Nat) (n e p : String) (now : Nat) (u : UserRow) :
    (applyUpdate id n e p now u).createdAt = u.createdAt := by
  unfold applyUpdate; split <;> rfl

/-- Supporting lemma: applying the SQL update row transformation twice with
the same fields only moves updatedAt. -/
theorem snapshot_applyUpdate_twice (id : Nat) (n e p : String) (t1 t2 : Nat) (u : UserRow) :
    (applyUpdate id n e p t2 (applyUpdate id n e p t1 u)).snapshot
      = (applyUpdate id n e p t1 u).snapshot := by
  cases h : u.id == id <;> simp [applyUpdate, h, UserRow.snapshot]

/-- Supporting lemma: the mongo update row transformation never changes
ids. -/
theorem applySet_id (id : Nat) (b : Body) (now : Nat) (v : UserRow) :
    (MongoRoutes.applySet id b now v).id = v.id := by
  unfold MongoRoutes.applySet; split <;> rfl

/-- Supporting lemma: applying the mongo update row transformation twice
with the same update document only moves updatedAt. -/
theorem snapshot_applySet_twice (id : Nat) (b : Body) (t1 t2 : Nat) (v : UserRow) :
    (MongoRoutes.applySet id b t2 (MongoRoutes.applySet id b t1 v)).snapshot
      = (MongoRoutes.applySet id b t1 v).snapshot := by
  obtain ⟨bn, be, bp⟩ := b
  cases h : v.id == id <;>
    cases bn <;> cases be <;> cases bp <;>
      simp [MongoRoutes.applySet, h, UserRow.snapshot, Option.getD]

/-- Supporting lemma: the fresh store satisfies the auto-increment
invariant. -/
theorem wf_init : Store.init.WF := by
  intro u hu; simp [Store.init] at hu

/-- Supporting lemma: appending a row stamped with the next id and bumping
the counter preserves the auto-increment invariant. -/
theorem wf_insert (s : Store) (h : s.WF) (n e p : String) (now : Nat) :
    Store.WF ⟨s.rows ++ [⟨s.nextId, n, e, p, now, now⟩], s.nextId + 1⟩ := by
  intro u hu
  rcases List.mem_append.mp hu with hl | hr
  · exact Nat.lt_trans (h u hl) (Nat.lt_succ_self _)
  · rcases List.mem_singleton.mp hr with rfl
    exact Nat.lt_succ_self _

/-- Supporting lemma: every sqlite route preserves the auto-increment
invariant of the store. -/
theorem wf_sqlite_handle (op : Op) (s : Store) (h : s.WF) :
    (SqliteRoutes.handle op s).1.WF := by
  cases op with
  | create b now =>
      obtain ⟨bn, be, bp⟩ := b
      cases bn <;> cases be <;> cases bp <;>
        first
          | exact h
          | exact wf_insert s h _ _ _ _
  | listAll => exact h
  | getOne id =>
      rcases hf : s.rows.find? (fun u => u.id == id) with _ | u <;>
        simp [SqliteRoutes.handle, SqliteRoutes.getUser, hf] <;> exact h
  | updateOne id b now =>
      obtain ⟨bn, be, bp⟩ := b
      cases bn <;> cases be <;> cases bp <;>
        try exact h
      rename_i n e p
      by_cases hany : (s.rows.any fun u => u.id == id) = true
      · simp only [SqliteRoutes.handle, SqliteRoutes.updateUser, hany, if_true]
        intro u hu
        rcases List.mem_map.mp hu with ⟨v, hv, rfl⟩
        rw [applyUpdate_id]
        exact h v hv
      · simp only [SqliteRoutes.handle, SqliteRoutes.updateUser, if_neg hany]
        exact h
  | deleteOne id =>
      by_cases hany : (s.rows.any fun u => u.id == id) = true
      · simp only [SqliteRoutes.handle, SqliteRoutes.deleteUser, hany, if_true]
        intro u hu
        exact h u (List.mem_of_mem_filter hu)
      · simp only [SqliteRoutes.handle, SqliteRoutes.deleteUser, if_neg hany]
        exact h

end MultiDB

namespace MultiDB

/-- Supporting lemma: every mysql route preserves the auto-increment
invariant of the store. -/
theorem wf_mysql_handle (op : Op) (s : Store) (h : s.WF) :
    (MysqlRoutes.handle op s).1.WF := by
  cases op with
  | create b now =>
      obtain ⟨bn, be, bp⟩ := b
      cases bn <;> cases be <;> cases bp <;>
        first
          | exact h
          | exact wf_insert s h _ _ _ _
  | listAll => exact h
  | getOne id =>
      rcases hf : s.rows.find? (fun u => u.id == id) with _ | u <;>
        simp [MysqlRoutes.handle, MysqlRoutes.getUser, hf] <;> exact h
  | updateOne id b now =>
      obtain ⟨bn, be, bp⟩ := b
      cases bn <;> cases be <;> cases bp <;>
        try exact h
      rename_i n e p
      by_cases hany : (s.rows.any fun u => u.id == id) = true
      · simp only [MysqlRoutes.handle, MysqlRoutes.updateUser, hany, if_true]
        intro u hu
        rcases List.mem_map.mp hu with ⟨v, hv, rfl⟩
        rw [applyUpdate_id]
        exact h v hv
      · simp only [MysqlRoutes.handle, MysqlRoutes.updateUser, if_neg hany]
        exact h
  | deleteOne id =>
      by_cases hany : (s.rows.any fun u => u.id == id) = true
      · simp only [MysqlRoutes.handle, MysqlRoutes.deleteUser, hany, if_true]
        intro u hu
        exact h u (List.mem_of_mem_filter hu)
      · simp only [MysqlRoutes.handle, MysqlRoutes.deleteUser, if_neg hany]
        exact h

/-- Supporting lemma: every mongo route, availability middleware included,
preserves the auto-increment invariant of the store. -/
theorem wf_mongo_handle (connected : Bool) (op : Op) (s : Store) (h : s.WF) :
    (MongoRoutes.handle connected op s).1.WF := by
  cases connected with
  | false =>
      cases op <;>
        simp only [MongoRoutes.handle, MongoRoutes.createUser, MongoRoutes.getUsers,
          MongoRoutes.getUser, MongoRoutes.updateUser, MongoRoutes.deleteUser,
          MongoRoutes.available, Bool.false_eq_true, if_false] <;>
        exact h
  | true =>
    cases op with
    | create b now =>
        obtain ⟨bn, be, bp⟩ := b
        cases bn <;> cases be <;> cases bp <;>
          simp only [MongoRoutes.handle, MongoRoutes.createUser, MongoRoutes.available,
            if_true] <;>
          try exact h
        rename_i n e p
        split
        · exact h
        · exact wf_insert s h _ _ _ _
    | listAll => exact h
    | getOne id =>
        rcases hf : s.rows.find? (fun u => u.id == id) with _ | u <;>
          simp [MongoRoutes.handle, MongoRoutes.getUser, MongoRoutes.available, hf] <;>
          exact h
    | updateOne id b now =>
        simp only [MongoRoutes.handle, MongoRoutes.updateUser, MongoRoutes.available,
          if_true]
        split
        · exact h
        · rcases hf : s.rows.find? (fun u => u.id == id) with _ | u
          · simp only [hf]; exact h
          · simp only [hf]
            intro u hu
            rcases List.mem_map.mp hu with ⟨v, hv, rfl⟩
            rw [applySet_id]
            exact h v hv
    | deleteOne id =>
        by_cases hany : (s.rows.any fun u => u.id == id) = true
        · simp only [MongoRoutes.handle, MongoRoutes.deleteUser, MongoRoutes.available,
            if_true, hany]
          intro u hu
          exact h u (List.mem_of_mem_filter hu)
        · simp only [MongoRoutes.handle, MongoRoutes.deleteUser, MongoRoutes.available,
            if_true, if_neg hany]
          exact h

end MultiDB

open MultiDB in
/-- Claim C1, counterexample: a POST /users on the sqlite path root whose
body is missing a non-empty name (the name is present but empty) is answered
201, not 400, and the row reaches the backing store, so the claimed
per-backend validation does not exist. -/
theorem create_validation_counterexample :
    (SqliteRoutes.createUser ⟨some "", some "a@b.com", some "042"⟩ 0 Store.init).2.status = 201 ∧
    ¬ (SqliteRoutes.createUser ⟨some "", some "a@b.com", some "042"⟩ 0 Store.init).2.status = 400 ∧
    (SqliteRoutes.createUser ⟨some "", some "a@b.com", some "042"⟩ 0 Store.init).1.rows
      = [⟨1, "", "a@b.com", "042", 0, 0⟩] := by
  decide

open MultiDB in
/-- Claim C1, amended: only the Mini Online Store POST /users validates its
body.  There, a request whose name or email is missing or empty is answered
400 with success false and never reaches the users array.  The sqlite route
of the multi-database demo performs no validation: with all three fields
present (empty strings included) it inserts the row and answers 201, while a
body with a missing field makes the adapter write itself throw and the route
answers 500 with the store unchanged. -/
theorem create_validation_amended (name email role : Option String)
    (users : List MiniStore.MUser)
    (h : (MiniStore.falsy name || MiniStore.falsy email) = true)
    (n e p : String) (now : Nat) (s : Store) :
    (MiniStore.createUser name email role users).2.status = 400 ∧
    (MiniStore.createUser name email role users).2.success = false ∧
    (MiniStore.createUser name email role users).1 = users ∧
    (SqliteRoutes.createUser ⟨some n, some e, some p⟩ now s).2.status = 201 ∧
    (SqliteRoutes.createUser ⟨some n, some e, some p⟩ now s).1.rows
      = s.rows ++ [⟨s.nextId, n, e, p, now, now⟩] ∧
    (SqliteRoutes.createUser ⟨none, some e, some p⟩ now s).2.status = 500 ∧
    (SqliteRoutes.createUser ⟨none, some e, some p⟩ now s).1 = s := by
  refine ⟨?_, ?_, ?_, rfl, rfl, rfl, rfl⟩ <;> simp [MiniStore.createUser, h]

open MultiDB in
/-- Claim C1, witness: the amended statement evaluated at a concrete
empty-name request against the seeded Mini Online Store array and the fresh
sqlite store. -/
theorem create_validation_amended_witness :
    ((MiniStore.falsy (some "") || MiniStore.falsy (some "x@y.z")) = true) ∧
    ((MiniStore.createUser (some "") (some "x@y.z") none MiniStore.initialUsers).2.status = 400 ∧
     (MiniStore.createUser (some "") (some "x@y.z") none MiniStore.initialUsers).2.success = false ∧
     (MiniStore.createUser (some "") (some "x@y.z") none MiniStore.initialUsers).1
        = MiniStore.initialUsers ∧
     (SqliteRoutes.createUser ⟨some "Dave", some "d@x.com", some "555"⟩ 7 Store.init).2.status = 201 ∧
     (SqliteRoutes.createUser ⟨some "Dave", some "d@x.com", some "555"⟩ 7 Store.init).1.rows
        = Store.init.rows ++ [⟨Store.init.nextId, "Dave", "d@x.com", "555", 7, 7⟩] ∧
     (SqliteRoutes.createUser ⟨none, some "d@x.com", some "555"⟩ 7 Store.init).2.status = 500 ∧
     (SqliteRoutes.createUser ⟨none, some "d@x.com", some "555"⟩ 7 Store.init).1 = Store.init) :=
  ⟨by decide,
   create_validation_amended (some "") (some "x@y.z") none MiniStore.initialUsers
     (by decide) "Dave" "d@x.com" "555" 7 Store.init⟩

open MultiDB in
/-- Claim C2, counterexample: the list endpoints put no count field in the
envelope.  Concretely, GET /users on each backend against the fresh
(zero-create) store answers 200 with an empty data list and no count, where
the claim promises a count field. -/
theorem list_count_counterexample :
    (SqliteRoutes.getUsers Store.init).2.count = none ∧
    (MysqlRoutes.getUsers Store.init).2.count = none ∧
    (MongoRoutes.getUsers true Store.init).2.count = none ∧
    (SqliteRoutes.getUsers Store.init).2
      = ⟨200, true, some (.users []), none, none⟩ := by
  decide

open MultiDB in
/-- Claim C2, amended: for every backend, GET /api/(backend)/users answers
200 with an envelope containing success true and data, the full user list
ordered newest first; the envelope carries no count field, so a client
measures the length of data; in particular after zero creates the data is
the empty sequence (length 0), not an error. -/
theorem list_users_envelope (sq my mo : Store) :
    (SqliteRoutes.getUsers sq).2
      = ⟨200, true, some (.users (sortByCreatedDesc sq.rows)), none, none⟩ ∧
    (MysqlRoutes.getUsers my).2
      = ⟨200, true, some (.users (sortByCreatedDesc my.rows)), none, none⟩ ∧
    (MongoRoutes.getUsers true mo).2
      = ⟨200, true, some (.users (sortByCreatedDesc mo.rows)), none, none⟩ ∧
    (SqliteRoutes.getUsers Store.init).2.data = some (.users []) ∧
    (MysqlRoutes.getUsers Store.init).2.data = some (.users []) ∧
    (MongoRoutes.getUsers true Store.init).2.data = some (.users []) :=
  ⟨rfl, rfl, rfl, rfl, rfl, rfl⟩

open MultiDB in
/-- Claim C3: when the document store is not connected, each of the five
operations under the /api/mongo path root is answered 503 with success false
and the whole application state is untouched, so no backend call is
attempted; and the response and store transition of the other two path roots
do not depend on the mongo availability flag at all. -/
theorem mongo_unavailable_fails_fast (op : Op) (st : AppState)
    (h : st.mongoConnected = false) :
    (appHandle .mongo op st).2.status = 503 ∧
    (appHandle .mongo op st).2.success = false ∧
    (appHandle .mongo op st).1 = st ∧
    (∀ c c' : Bool,
      (appHandle .sqlite op { st with mongoConnected := c }).2
        = (appHandle .sqlite op { st with mongoConnected := c' }).2 ∧
      (appHandle .sqlite op { st with mongoConnected := c }).1.sqlite
        = (appHandle .sqlite op { st with mongoConnected := c' }).1.sqlite ∧
      (appHandle .mysql op { st with mongoConnected := c }).2
        = (appHandle .mysql op { st with mongoConnected := c' }).2 ∧
      (appHandle .mysql op { st with mongoConnected := c }).1.mysql
        = (appHandle .mysql op { st with mongoConnected := c' }).1.mysql) := by
  refine ⟨?_, ?_, ?_, fun c c' => ⟨rfl, rfl, rfl, rfl⟩⟩ <;>
    cases op <;>
      simp [appHandle, MongoRoutes.handle, MongoRoutes.createUser, MongoRoutes.getUsers,
        MongoRoutes.getUser, MongoRoutes.updateUser, MongoRoutes.deleteUser,
        MongoRoutes.available, MongoRoutes.unavailable, h] <;>
      rw [← h]

open MultiDB in
/-- Claim C3, witness: the statement evaluated at the list operation against
a concrete application state whose mongo flag is down. -/
theorem mongo_unavailable_fails_fast_witness :
    ((⟨false, Store.init, Store.init, Store.init⟩ : AppState).mongoConnected = false) ∧
    ((appHandle .mongo .listAll ⟨false, Store.init, Store.init, Store.init⟩).2.status = 503 ∧
     (appHandle .mongo .listAll ⟨false, Store.init, Store.init, Store.init⟩).2.success = false ∧
     (appHandle .mongo .listAll ⟨false, Store.init, Store.init, Store.init⟩).1
        = ⟨false, Store.init, Store.init, Store.init⟩ ∧
     (∀ c c' : Bool,
       (appHandle .sqlite .listAll
           { (⟨false, Store.init, Store.init, Store.init⟩ : AppState) with mongoConnected := c }).2
         = (appHandle .sqlite .listAll
           { (⟨false, Store.init, Store.init, Store.init⟩ : AppState) with mongoConnected := c' }).2 ∧
       (appHandle .sqlite .listAll
           { (⟨false, Store.init, Store.init, Store.init⟩ : AppState) with mongoConnected := c }).1.sqlite
         = (appHandle .sqlite .listAll
           { (⟨false, Store.init, Store.init, Store.init⟩ : AppState) with mongoConnected := c' }).1.sqlite ∧
       (appHandle .mysql .listAll
           { (⟨false, Store.init, Store.init, Store.init⟩ : AppState) with mongoConnected := c }).2
         = (appHandle .mysql .listAll
           { (⟨false, Store.init, Store.init, Store.init⟩ : AppState) with mongoConnected := c' }).2 ∧
       (appHandle .mysql .listAll
           { (⟨false, Store.init, Store.init, Store.init⟩ : AppState) with mongoConnected := c }).1.mysql
         = (appHandle .mysql .listAll
           { (⟨false, Store.init, Store.init, Store.init⟩ : AppState) with mongoConnected := c' }).1.mysql)) :=
  ⟨rfl, mongo_unavailable_fails_fast .listAll ⟨false, Store.init, Store.init, Store.init⟩ rfl⟩

open MultiDB in
/-- Claim C4: for every backend, DELETE /users/:id with an id matching no
stored user answers 404 with success false and leaves the store unchanged —
never 200 — while an id some stored row does match answers 200 with a
success message and actually removes exactly the matching row. -/
theorem delete_nonexistent_404 (id : Nat) (sq my mo tq tm tg : Store)
    (h1 : ∀ u ∈ sq.rows, u.id ≠ id) (h2 : ∀ u ∈ my.rows, u.id ≠ id)
    (h3 : ∀ u ∈ mo.rows, u.id ≠ id)
    (g1 : ∃ u ∈ tq.rows, u.id = id) (g2 : ∃ u ∈ tm.rows, u.id = id)
    (g3 : ∃ u ∈ tg.rows, u.id = id) :
    ((SqliteRoutes.deleteUser id sq).2.status = 404 ∧
     (SqliteRoutes.deleteUser id sq).2.success = false ∧
     (SqliteRoutes.deleteUser id sq).1 = sq) ∧
    ((MysqlRoutes.deleteUser id my).2.status = 404 ∧
     (MysqlRoutes.deleteUser id my).2.success = false ∧
     (MysqlRoutes.deleteUser id my).1 = my) ∧
    ((MongoRoutes.deleteUser true id mo).2.status = 404 ∧
     (MongoRoutes.deleteUser true id mo).2.success = false ∧
     (MongoRoutes.deleteUser true id mo).1 = mo) ∧
    ((SqliteRoutes.deleteUser id tq).2.status = 200 ∧
     (SqliteRoutes.deleteUser id tq).2.success = true ∧
     (SqliteRoutes.deleteUser id tq).1.rows = tq.rows.filter (fun u => !(u.id == id))) ∧
    ((MysqlRoutes.deleteUser id tm).2.status = 200 ∧
     (MysqlRoutes.deleteUser id tm).2.success = true ∧
     (MysqlRoutes.deleteUser id tm).1.rows = tm.rows.filter (fun u => !(u.id == id))) ∧
    ((MongoRoutes.deleteUser true id tg).2.status = 200 ∧
     (MongoRoutes.deleteUser true id tg).2.success = true ∧
     (MongoRoutes.deleteUser true id tg).1.rows = tg.rows.filter (fun u => !(u.id == id))) := by
  obtain ⟨u1, hu1, hd1⟩ := g1
  obtain ⟨u2, hu2, hd2⟩ := g2
  obtain ⟨u3, hu3, hd3⟩ := g3
  have a1 : (sq.rows.any fun u => u.id == id) = false := by
    simp only [List.any_eq_false]
    intro u hu
    simpa using h1 u hu
  have a2 : (my.rows.any fun u => u.id == id) = false := by
    simp only [List.any_eq_false]
    intro u hu
    simpa using h2 u hu
  have a3 : (mo.rows.any fun u => u.id == id) = false := by
    simp only [List.any_eq_false]
    intro u hu
    simpa using h3 u hu
  have b1 : (tq.rows.any fun u => u.id == id) = true :=
    List.any_eq_true.mpr ⟨u1, hu1, by simp [hd1]⟩
  have b2 : (tm.rows.any fun u => u.id == id) = true :=
    List.any_eq_true.mpr ⟨u2, hu2, by simp [hd2]⟩
  have b3 : (tg.rows.any fun u => u.id == id) = true :=
    List.any_eq_true.mpr ⟨u3, hu3, by simp [hd3]⟩
  refine ⟨?_, ?_, ?_, ?_, ?_, ?_⟩ <;>
    simp [SqliteRoutes.deleteUser, MysqlRoutes.deleteUser, MongoRoutes.deleteUser,
      MongoRoutes.available, a1, a2, a3, b1, b2, b3]

open MultiDB in
/-- Claim C4, witness: deleting id 1 against fresh (empty) stores answers
404 everywhere, and against one-row stores holding id 1 answers 200
everywhere and empties the store. -/
theorem delete_nonexistent_404_witness :
    (∀ u ∈ Store.init.rows, u.id ≠ 1) ∧
    (∃ u ∈ ([⟨1, "A", "a@x", "1", 0, 0⟩] : List UserRow), u.id = 1) ∧
    (((SqliteRoutes.deleteUser 1 Store.init).2.status = 404 ∧
      (SqliteRoutes.deleteUser 1 Store.init).2.success = false ∧
      (SqliteRoutes.deleteUser 1 Store.init).1 = Store.init) ∧
     ((MysqlRoutes.deleteUser 1 Store.init).2.status = 404 ∧
      (MysqlRoutes.deleteUser 1 Store.init).2.success = false ∧
      (MysqlRoutes.deleteUser 1 Store.init).1 = Store.init) ∧
     ((MongoRoutes.deleteUser true 1 Store.init).2.status = 404 ∧
      (MongoRoutes.deleteUser true 1 Store.init).2.success = false ∧
      (MongoRoutes.deleteUser true 1 Store.init).1 = Store.init) ∧
     ((SqliteRoutes.deleteUser 1 ⟨[⟨1, "A", "a@x", "1", 0, 0⟩], 2⟩).2.status = 200 ∧
      (SqliteRoutes.deleteUser 1 ⟨[⟨1, "A", "a@x", "1", 0, 0⟩], 2⟩).2.success = true ∧
      (SqliteRoutes.deleteUser 1 ⟨[⟨1, "A", "a@x", "1", 0, 0⟩], 2⟩).1.rows
        = ([⟨1, "A", "a@x", "1", 0, 0⟩] : List UserRow).filter (fun u => !(u.id == 1))) ∧
     ((MysqlRoutes.deleteUser 1 ⟨[⟨1, "A", "a@x", "1", 0, 0⟩], 2⟩).2.status = 200 ∧
      (MysqlRoutes.deleteUser 1 ⟨[⟨1, "A", "a@x", "1", 0, 0⟩], 2⟩).2.success = true ∧
      (MysqlRoutes.deleteUser 1 ⟨[⟨1, "A", "a@x", "1", 0, 0⟩], 2⟩).1.rows
        = ([⟨1, "A", "a@x", "1", 0, 0⟩] : List UserRow).filter (fun u => !(u.id == 1))) ∧
     ((MongoRoutes.deleteUser true 1 ⟨[⟨1, "A", "a@x", "1", 0, 0⟩], 2⟩).2.status = 200 ∧
      (MongoRoutes.deleteUser true 1 ⟨[⟨1, "A", "a@x", "1", 0, 0⟩], 2⟩).2.success = true ∧
      (MongoRoutes.deleteUser true 1 ⟨[⟨1, "A", "a@x", "1", 0, 0⟩], 2⟩).1.rows
        = ([⟨1, "A", "a@x", "1", 0, 0⟩] : List UserRow).filter (fun u => !(u.id == 1)))) :=
  ⟨by decide, by decide,
   delete_nonexistent_404 1 Store.init Store.init Store.init
     ⟨[⟨1, "A", "a@x", "1", 0, 0⟩], 2⟩ ⟨[⟨1, "A", "a@x", "1", 0, 0⟩], 2⟩
     ⟨[⟨1, "A", "a@x", "1", 0, 0⟩], 2⟩
     (by decide) (by decide) (by decide) (by decide) (by decide) (by decide)⟩

open MultiDB in
/-- Claim C5: for every backend and every valid field set, creating a user
and immediately fetching it by the id echoed by the create yields a record
whose name, email and phone are exactly the supplied ones.  The stores are
assumed to satisfy the auto-increment invariant, which holds for every
reachable store. -/
theorem create_then_get_roundtrip (n e p : String) (now : Nat) (sq my mo : Store)
    (hn : n ≠ "") (he : e ≠ "") (hp : p ≠ "")
    (wq : sq.WF) (wm : my.WF) (wo : mo.WF) :
    (SqliteRoutes.createUser ⟨some n, some e, some p⟩ now sq).2
      = ⟨201, true, some (.fields sq.nextId n e p), none, none⟩ ∧
    (SqliteRoutes.getUser sq.nextId
        (SqliteRoutes.createUser ⟨some n, some e, some p⟩ now sq).1).2
      = ⟨200, true, some (.user ⟨sq.nextId, n, e, p, now, now⟩), none, none⟩ ∧
    (MysqlRoutes.createUser ⟨some n, some e, some p⟩ now my).2
      = ⟨201, true, some (.fields my.nextId n e p), none, none⟩ ∧
    (MysqlRoutes.getUser my.nextId
        (MysqlRoutes.createUser ⟨some n, some e, some p⟩ now my).1).2
      = ⟨200, true, some (.user ⟨my.nextId, n, e, p, now, now⟩), none, none⟩ ∧
    (MongoRoutes.createUser true ⟨some n, some e, some p⟩ now mo).2
      = ⟨201, true, some (.user ⟨mo.nextId, n, e, p, now, now⟩), none, none⟩ ∧
    (MongoRoutes.getUser true mo.nextId
        (MongoRoutes.createUser true ⟨some n, some e, some p⟩ now mo).1).2
      = ⟨200, true, some (.user ⟨mo.nextId, n, e, p, now, now⟩), none, none⟩ := by
  have hn2 : (n == "") = false := by simpa using hn
  have he2 : (e == "") = false := by simpa using he
  have hp2 : (p == "") = false := by simpa using hp
  have fq : (sq.rows ++ [(⟨sq.nextId, n, e, p, now, now⟩ : UserRow)]).find?
      (fun u => u.id == sq.nextId) = some ⟨sq.nextId, n, e, p, now, now⟩ := by
    rw [find?_append_right (fun x hx => by simpa using Nat.ne_of_lt (wq x hx))]
    simp [List.find?]
  have fm : (my.rows ++ [(⟨my.nextId, n, e, p, now, now⟩ : UserRow)]).find?
      (fun u => u.id == my.nextId) = some ⟨my.nextId, n, e, p, now, now⟩ := by
    rw [find?_append_right (fun x hx => by simpa using Nat.ne_of_lt (wm x hx))]
    simp [List.find?]
  have fo : (mo.rows ++ [(⟨mo.nextId, n, e, p, now, now⟩ : UserRow)]).find?
      (fun u => u.id == mo.nextId) = some ⟨mo.nextId, n, e, p, now, now⟩ := by
    rw [find?_append_right (fun x hx => by simpa using Nat.ne_of_lt (wo x hx))]
    simp [List.find?]
  refine ⟨rfl, ?_, rfl, ?_, ?_, ?_⟩
  · simp [SqliteRoutes.getUser, SqliteRoutes.createUser, fq]
  · simp [MysqlRoutes.getUser, MysqlRoutes.createUser, fm]
  · simp [MongoRoutes.createUser, MongoRoutes.available, hn2, he2, hp2]
  · simp [MongoRoutes.getUser, MongoRoutes.createUser, MongoRoutes.available,
      hn2, he2, hp2, fo]

open MultiDB in
/-- Claim C5, witness: the round trip evaluated for the field set Dave at
fresh stores. -/
theorem create_then_get_roundtrip_witness :
    ("Dave" ≠ "") ∧ ("dave@x.com" ≠ "") ∧ ("555" ≠ "") ∧
    Store.init.WF ∧
    ((SqliteRoutes.createUser ⟨some "Dave", some "dave@x.com", some "555"⟩ 3 Store.init).2
       = ⟨201, true, some (.fields Store.init.nextId "Dave" "dave@x.com" "555"), none, none⟩ ∧
     (SqliteRoutes.getUser Store.init.nextId
         (SqliteRoutes.createUser ⟨some "Dave", some "dave@x.com", some "555"⟩ 3 Store.init).1).2
       = ⟨200, true, some (.user ⟨Store.init.nextId, "Dave", "dave@x.com", "555", 3, 3⟩), none, none⟩ ∧
     (MysqlRoutes.createUser ⟨some "Dave", some "dave@x.com", some "555"⟩ 3 Store.init).2
       = ⟨201, true, some (.fields Store.init.nextId "Dave" "dave@x.com" "555"), none, none⟩ ∧
     (MysqlRoutes.getUser Store.init.nextId
         (MysqlRoutes.createUser ⟨some "Dave", some "dave@x.com", some "555"⟩ 3 Store.init).1).2
       = ⟨200, true, some (.user ⟨Store.init.nextId, "Dave", "dave@x.com", "555", 3, 3⟩), none, none⟩ ∧
     (MongoRoutes.createUser true ⟨some "Dave", some "dave@x.com", some "555"⟩ 3 Store.init).2
       = ⟨201, true, some (.user ⟨Store.init.nextId, "Dave", "dave@x.com", "555", 3, 3⟩), none, none⟩ ∧
     (MongoRoutes.getUser true Store.init.nextId
         (MongoRoutes.createUser true ⟨some "Dave", some "dave@x.com", some "555"⟩ 3 Store.init).1).2
       = ⟨200, true, some (.user ⟨Store.init.nextId, "Dave", "dave@x.com", "555", 3, 3⟩), none, none⟩) :=
  ⟨by decide, by decide, by decide, fun u hu => by simp [Store.init] at hu,
   create_then_get_roundtrip "Dave" "dave@x.com" "555" 3 Store.init Store.init Store.init
     (by decide) (by decide) (by decide)
     (fun u hu => by simp [Store.init] at hu)
     (fun u hu => by simp [Store.init] at hu)
     (fun u hu => by simp [Store.init] at hu)⟩

open MultiDB in
/-- Claim C6: for every backend, the list-all operation returns the stored
users as an ordered sequence sorted newest-created first: the data payload
is exactly the stored rows rearranged into descending createdAt order. -/
theorem list_sorted_newest_first (sq my mo : Store) :
    (SqliteRoutes.getUsers sq).2.data = some (.users (sortByCreatedDesc sq.rows)) ∧
    (MysqlRoutes.getUsers my).2.data = some (.users (sortByCreatedDesc my.rows)) ∧
    (MongoRoutes.getUsers true mo).2.data = some (.users (sortByCreatedDesc mo.rows)) ∧
    (∀ l : List UserRow, List.Sorted createdDesc (sortByCreatedDesc l)) ∧
    (∀ l : List UserRow, List.Perm (sortByCreatedDesc l) l) :=
  ⟨rfl, rfl, rfl,
   fun l => List.sorted_insertionSort createdDesc l,
   fun l => List.perm_insertionSort createdDesc l⟩

namespace MultiDB

/-- Supporting lemma: the sqlite PUT applied twice with the same body keeps
every stored value except possibly updatedAt, and answers the same status. -/
theorem sqlite_update_idem (id t1 t2 : Nat) (b : Body) (s : Store) :
    (SqliteRoutes.updateUser id b t2
        (SqliteRoutes.updateUser id b t1 s).1).1.rows.map UserRow.snapshot
      = (SqliteRoutes.updateUser id b t1 s).1.rows.map UserRow.snapshot ∧
    (SqliteRoutes.updateUser id b t2 (SqliteRoutes.updateUser id b t1 s).1).2.status
      = (SqliteRoutes.updateUser id b t1 s).2.status := by
  obtain ⟨bn, be, bp⟩ := b
  cases bn with
  | none => exact ⟨rfl, rfl⟩
  | some n =>
  cases be with
  | none => exact ⟨rfl, rfl⟩
  | some e =>
  cases bp with
  | none => exact ⟨rfl, rfl⟩
  | some p =>
  by_cases hany : (s.rows.any fun u => u.id == id) = true
  · have h1 : (SqliteRoutes.updateUser id ⟨some n, some e, some p⟩ t1 s).1
        = ⟨s.rows.map (applyUpdate id n e p t1), s.nextId⟩ := by
      simp [SqliteRoutes.updateUser, hany]
    have hany2 : ((s.rows.map (applyUpdate id n e p t1)).any fun u => u.id == id) = true := by
      rw [List.any_map]
      have hc : ((fun u => u.id == id) ∘ applyUpdate id n e p t1) = fun u => u.id == id := by
        funext u; simp [Function.comp, applyUpdate_id]
      rw [hc]; exact hany
    constructor
    · rw [h1]
      simp only [SqliteRoutes.updateUser, hany2, if_true, List.map_map]
      exact List.map_congr_left fun u _ => by
        simp only [Function.comp]
        exact snapshot_applyUpdate_twice id n e p t1 t2 u
    · rw [h1]
      simp [SqliteRoutes.updateUser, hany, hany2]
  · have hf1 : SqliteRoutes.updateUser id ⟨some n, some e, some p⟩ t1 s
        = (s, ⟨404, false, none, some "User not found", none⟩) := by
      simp only [SqliteRoutes.updateUser, if_neg hany]
    have hf2 : SqliteRoutes.updateUser id ⟨some n, some e, some p⟩ t2 s
        = (s, ⟨404, false, none, some "User not found", none⟩) := by
      simp only [SqliteRoutes.updateUser, if_neg hany]
    simp only [hf1, hf2]
    exact ⟨trivial, trivial⟩

/-- Supporting lemma: the mysql PUT applied twice with the same body keeps
every stored value except possibly updatedAt, and answers the same status. -/
theorem mysql_update_idem (id t1 t2 : Nat) (b : Body) (s : Store) :
    (MysqlRoutes.updateUser id b t2
        (MysqlRoutes.updateUser id b t1 s).1).1.rows.map UserRow.snapshot
      = (MysqlRoutes.updateUser id b t1 s).1.rows.map UserRow.snapshot ∧
    (MysqlRoutes.updateUser id b t2 (MysqlRoutes.updateUser id b t1 s).1).2.status
      = (MysqlRoutes.updateUser id b t1 s).2.status := by
  obtain ⟨bn, be, bp⟩ := b
  cases bn with
  | none => exact ⟨rfl, rfl⟩
  | some n =>
  cases be with
  | none => exact ⟨rfl, rfl⟩
  | some e =>
  cases bp with
  | none => exact ⟨rfl, rfl⟩
  | some p =>
  by_cases hany : (s.rows.any fun u => u.id == id) = true
  · have h1 : (MysqlRoutes.updateUser id ⟨some n, some e, some p⟩ t1 s).1
        = ⟨s.rows.map (applyUpdate id n e p t1), s.nextId⟩ := by
      simp [MysqlRoutes.updateUser, hany]
    have hany2 : ((s.rows.map (applyUpdate id n e p t1)).any fun u => u.id == id) = true := by
      rw [List.any_map]
      have hc : ((fun u => u.id == id) ∘ applyUpdate id n e p t1) = fun u => u.id == id := by
        funext u; simp [Function.comp, applyUpdate_id]
      rw [hc]; exact hany
    constructor
    · rw [h1]
      simp only [MysqlRoutes.updateUser, hany2, if_true, List.map_map]
      exact List.map_congr_left fun u _ => by
        simp only [Function.comp]
        exact snapshot_applyUpdate_twice id n e p t1 t2 u
    · rw [h1]
      simp [MysqlRoutes.updateUser, hany, hany2]
  · have hf1 : MysqlRoutes.updateUser id ⟨some n, some e, some p⟩ t1 s
        = (s, ⟨404, false, none, some "User not found", none⟩) := by
      simp only [MysqlRoutes.updateUser, if_neg hany]
    have hf2 : MysqlRoutes.updateUser id ⟨some n, some e, some p⟩ t2 s
        = (s, ⟨404, false, none, some "User not found", none⟩) := by
      simp only [MysqlRoutes.updateUser, if_neg hany]
    simp only [hf1, hf2]
    exact ⟨trivial, trivial⟩

/-- Supporting lemma: the mongo PUT applied twice with the same update
document keeps every stored value except possibly updatedAt, and answers the
same status. -/
theorem mongo_update_idem (id t1 t2 : Nat) (b : Body) (s : Store) :
    (MongoRoutes.updateUser true id b t2
        (MongoRoutes.updateUser true id b t1 s).1).1.rows.map UserRow.snapshot
      = (MongoRoutes.updateUser true id b t1 s).1.rows.map UserRow.snapshot ∧
    (MongoRoutes.updateUser true id b t2 (MongoRoutes.updateUser true id b t1 s).1).2.status
      = (MongoRoutes.updateUser true id b t1 s).2.status := by
  by_cases hv : ((b.name.getD "x" == "") || (b.email.getD "x" == "")
      || (b.phone.getD "x" == "")) = true
  · have h1 : MongoRoutes.updateUser true id b t1 s
        = (s, ⟨500, false, none, some "Validation failed", none⟩) := by
      simp [MongoRoutes.updateUser, MongoRoutes.available, hv]
    rw [h1]
    simp [MongoRoutes.updateUser, MongoRoutes.available, hv]
  · rcases hf : s.rows.find? (fun u => u.id == id) with _ | u
    · have h1 : MongoRoutes.updateUser true id b t1 s
          = (s, ⟨404, false, none, some "User not found", none⟩) := by
        simp [MongoRoutes.updateUser, MongoRoutes.available, hv, hf]
      rw [h1]
      simp [MongoRoutes.updateUser, MongoRoutes.available, hv, hf]
    · have h1 : (MongoRoutes.updateUser true id b t1 s).1
          = ⟨s.rows.map (MongoRoutes.applySet id b t1), s.nextId⟩ := by
        simp [MongoRoutes.updateUser, MongoRoutes.available, hv, hf]
      have hf2 : (s.rows.map (MongoRoutes.applySet id b t1)).find? (fun u => u.id == id)
          = some (MongoRoutes.applySet id b t1 u) := by
        rw [List.find?_map]
        have hc : ((fun u => u.id == id) ∘ MongoRoutes.applySet id b t1)
            = fun u => u.id == id := by
          funext v; simp [Function.comp, applySet_id]
        rw [hc, hf]
        rfl
      constructor
      · rw [h1]
        simp only [MongoRoutes.updateUser, MongoRoutes.available, if_true, hv, hf2,
          Bool.false_eq_true, if_false, List.map_map]
        exact List.map_congr_left fun v _ => by
          simp only [Function.comp]
          exact snapshot_applySet_twice id b t1 t2 v
      · rw [h1]
        simp [MongoRoutes.updateUser, MongoRoutes.available, hv, hf, hf2]

end MultiDB

open MultiDB in
/-- Claim C8: update is idempotent in effect on every backend: applying the
same update payload twice leaves every stored field except possibly
updatedAt equal to the result of applying it once, and the second response
carries the same status as the first. -/
theorem update_idempotent (id t1 t2 : Nat) (b : Body) (sq my mo : Store) :
    ((SqliteRoutes.updateUser id b t2
         (SqliteRoutes.updateUser id b t1 sq).1).1.rows.map UserRow.snapshot
       = (SqliteRoutes.updateUser id b t1 sq).1.rows.map UserRow.snapshot ∧
     (SqliteRoutes.updateUser id b t2 (SqliteRoutes.updateUser id b t1 sq).1).2.status
       = (SqliteRoutes.updateUser id b t1 sq).2.status) ∧
    ((MysqlRoutes.updateUser id b t2
         (MysqlRoutes.updateUser id b t1 my).1).1.rows.map UserRow.snapshot
       = (MysqlRoutes.updateUser id b t1 my).1.rows.map UserRow.snapshot ∧
     (MysqlRoutes.updateUser id b t2 (MysqlRoutes.updateUser id b t1 my).1).2.status
       = (MysqlRoutes.updateUser id b t1 my).2.status) ∧
    ((MongoRoutes.updateUser true id b t2
         (MongoRoutes.updateUser true id b t1 mo).1).1.rows.map UserRow.snapshot
       = (MongoRoutes.updateUser true id b t1 mo).1.rows.map UserRow.snapshot ∧
     (MongoRoutes.updateUser true id b t2
         (MongoRoutes.updateUser true id b t1 mo).1).2.status
       = (MongoRoutes.updateUser true id b t1 mo).2.status) :=
  ⟨sqlite_update_idem id t1 t2 b sq, mysql_update_idem id t1 t2 b my,
   mongo_update_idem id t1 t2 b mo⟩

open MultiDB in
/-- Claim C7: on every backend, a successful update of a stored user with a
valid full payload rewrites the store by a per-row transformation that
touches only name, email, phone and updatedAt: it never changes a row's id
or createdAt, it leaves every row with a different id exactly as it was, and
it gives the matched row precisely the supplied fields. -/
theorem update_frame (id now : Nat) (n e p : String) (sq my mo : Store)
    (hn : n ≠ "") (he : e ≠ "") (hp : p ≠ "")
    (hq : ∃ u ∈ sq.rows, u.id = id) (hy : ∃ u ∈ my.rows, u.id = id)
    (hm : ∃ u ∈ mo.rows, u.id = id) :
    (SqliteRoutes.updateUser id ⟨some n, some e, some p⟩ now sq).2.status = 200 ∧
    (SqliteRoutes.updateUser id ⟨some n, some e, some p⟩ now sq).1.rows
      = sq.rows.map (applyUpdate id n e p now) ∧
    (MysqlRoutes.updateUser id ⟨some n, some e, some p⟩ now my).2.status = 200 ∧
    (MysqlRoutes.updateUser id ⟨some n, some e, some p⟩ now my).1.rows
      = my.rows.map (applyUpdate id n e p now) ∧
    (MongoRoutes.updateUser true id ⟨some n, some e, some p⟩ now mo).2.status = 200 ∧
    (MongoRoutes.updateUser true id ⟨some n, some e, some p⟩ now mo).1.rows
      = mo.rows.map (applyUpdate id n e p now) ∧
    (∀ u : UserRow,
      (applyUpdate id n e p now u).id = u.id ∧
      (applyUpdate id n e p now u).createdAt = u.createdAt ∧
      (u.id ≠ id → applyUpdate id n e p now u = u) ∧
      (u.id = id → applyUpdate id n e p now u
          = { u with name := n, email := e, phone := p, updatedAt := now })) := by
  obtain ⟨u1, hu1, hd1⟩ := hq
  obtain ⟨u2, hu2, hd2⟩ := hy
  obtain ⟨u3, hu3, hd3⟩ := hm
  have hn2 : (n == "") = false := by simpa using hn
  have he2 : (e == "") = false := by simpa using he
  have hp2 : (p == "") = false := by simpa using hp
  have a1 : (sq.rows.any fun u => u.id == id) = true :=
    List.any_eq_true.mpr ⟨u1, hu1, by simp [hd1]⟩
  have a2 : (my.rows.any fun u => u.id == id) = true :=
    List.any_eq_true.mpr ⟨u2, hu2, by simp [hd2]⟩
  have hfo : ∃ v, mo.rows.find? (fun u => u.id == id) = some v := by
    rw [← Option.isSome_iff_exists]
    exact List.find?_isSome.mpr ⟨u3, hu3, by simp [hd3]⟩
  obtain ⟨v, hv⟩ := hfo
  refine ⟨?_, ?_, ?_, ?_, ?_, ?_, ?_⟩
  · simp [SqliteRoutes.updateUser, a1]
  · simp [SqliteRoutes.updateUser, a1]
  · simp [MysqlRoutes.updateUser, a2]
  · simp [MysqlRoutes.updateUser, a2]
  · simp [MongoRoutes.updateUser, MongoRoutes.available, hn2, he2, hp2, hv]
  · simp only [MongoRoutes.updateUser, MongoRoutes.available, if_true, hn2, he2, hp2,
      Option.getD_some, Bool.or_self, Bool.false_eq_true, if_false, hv]
    rfl
  · intro u
    refine ⟨applyUpdate_id id n e p now u, applyUpdate_createdAt id n e p now u, ?_, ?_⟩
    · intro hne
      simp [applyUpdate, hne]
    · intro heq
      simp [applyUpdate, heq]

open MultiDB in
/-- Claim C7, witness: the frame property evaluated for a concrete update of
id 1 against two-row stores. -/
theorem update_frame_witness :
    ("N" ≠ "") ∧ ("E" ≠ "") ∧ ("P" ≠ "") ∧
    (∃ u ∈ ([⟨1, "A", "a@x", "1", 0, 0⟩, ⟨2, "B", "b@x", "2", 5, 5⟩] : List UserRow),
      u.id = 1) ∧
    ((SqliteRoutes.updateUser 1 ⟨some "N", some "E", some "P"⟩ 9
        ⟨[⟨1, "A", "a@x", "1", 0, 0⟩, ⟨2, "B", "b@x", "2", 5, 5⟩], 3⟩).2.status = 200 ∧
     (SqliteRoutes.updateUser 1 ⟨some "N", some "E", some "P"⟩ 9
        ⟨[⟨1, "A", "a@x", "1", 0, 0⟩, ⟨2, "B", "b@x", "2", 5, 5⟩], 3⟩).1.rows
       = ([⟨1, "A", "a@x", "1", 0, 0⟩, ⟨2, "B", "b@x", "2", 5, 5⟩] : List UserRow).map
           (applyUpdate 1 "N" "E" "P" 9) ∧
     (MysqlRoutes.updateUser 1 ⟨some "N", some "E", some "P"⟩ 9
        ⟨[⟨1, "A", "a@x", "1", 0, 0⟩, ⟨2, "B", "b@x", "2", 5, 5⟩], 3⟩).2.status = 200 ∧
     (MysqlRoutes.updateUser 1 ⟨some "N", some "E", some "P"⟩ 9
        ⟨[⟨1, "A", "a@x", "1", 0, 0⟩, ⟨2, "B", "b@x", "2", 5, 5⟩], 3⟩).1.rows
       = ([⟨1, "A", "a@x", "1", 0, 0⟩, ⟨2, "B", "b@x", "2", 5, 5⟩] : List UserRow).map
           (applyUpdate 1 "N" "E" "P" 9) ∧
     (MongoRoutes.updateUser true 1 ⟨some "N", some "E", some "P"⟩ 9
        ⟨[⟨1, "A", "a@x", "1", 0, 0⟩, ⟨2, "B", "b@x", "2", 5, 5⟩], 3⟩).2.status = 200 ∧
     (MongoRoutes.updateUser true 1 ⟨some "N", some "E", some "P"⟩ 9
        ⟨[⟨1, "A", "a@x", "1", 0, 0⟩, ⟨2, "B", "b@x", "2", 5, 5⟩], 3⟩).1.rows
       = ([⟨1, "A", "a@x", "1", 0, 0⟩, ⟨2, "B", "b@x", "2", 5, 5⟩] : List UserRow).map
           (applyUpdate 1 "N" "E" "P" 9) ∧
     (∀ u : UserRow,
       (applyUpdate 1 "N" "E" "P" 9 u).id = u.id ∧
       (applyUpdate 1 "N" "E" "P" 9 u).createdAt = u.createdAt ∧
       (u.id ≠ 1 → applyUpdate 1 "N" "E" "P" 9 u = u) ∧
       (u.id = 1 → applyUpdate 1 "N" "E" "P" 9 u
           = { u with name := "N", email := "E", phone := "P", updatedAt := 9 }))) :=
  ⟨by decide, by decide, by decide, by decide,
   update_frame 1 9 "N" "E" "P"
     ⟨[⟨1, "A", "a@x", "1", 0, 0⟩, ⟨2, "B", "b@x", "2", 5, 5⟩], 3⟩
     ⟨[⟨1, "A", "a@x", "1", 0, 0⟩, ⟨2, "B", "b@x", "2", 5, 5⟩], 3⟩
     ⟨[⟨1, "A", "a@x", "1", 0, 0⟩, ⟨2, "B", "b@x", "2", 5, 5⟩], 3⟩
     (by decide) (by decide) (by decide) (by decide) (by decide) (by decide)⟩

open MiniStore in
/-- Claim C9: the Mini Online Store create enforces no uniqueness constraint
on email — the statement holds for every current array, including arrays
already containing the same email — and it computes the new id from the
current array length as length + 1, a function of array size rather than a
monotone counter. -/
theorem ministore_create_id_from_length (name email : String) (role : Option String)
    (users : List MUser) (hn : name ≠ "") (he : email ≠ "") :
    (createUser (some name) (some email) role users).2.status = 201 ∧
    (createUser (some name) (some email) role users).2.success = true ∧
    (createUser (some name) (some email) role users).2.data
      = some ⟨users.length + 1, name, email,
              if falsy role then "customer" else role.getD "customer"⟩ ∧
    (createUser (some name) (some email) role users).1
      = users ++ [⟨users.length + 1, name, email,
                   if falsy role then "customer" else role.getD "customer"⟩] := by
  have hn2 : falsy (some name) = false := by simpa [falsy] using hn
  have he2 : falsy (some email) = false := by simpa [falsy] using he
  refine ⟨?_, ?_, ?_, ?_⟩ <;> simp [createUser, hn2, he2]

open MiniStore in
/-- Claim C9, witness: creating a user whose email duplicates the seeded
Alice record still succeeds, and its id is the array length plus one. -/
theorem ministore_create_id_from_length_witness :
    ("Alice Clone" ≠ "") ∧ ("alice@example.com" ≠ "") ∧
    (∃ u ∈ initialUsers, u.email = "alice@example.com") ∧
    ((createUser (some "Alice Clone") (some "alice@example.com") none initialUsers).2.status
        = 201 ∧
     (createUser (some "Alice Clone") (some "alice@example.com") none initialUsers).2.success
        = true ∧
     (createUser (some "Alice Clone") (some "alice@example.com") none initialUsers).2.data
        = some ⟨initialUsers.length + 1, "Alice Clone", "alice@example.com", "customer"⟩ ∧
     (createUser (some "Alice Clone") (some "alice@example.com") none initialUsers).1
        = initialUsers
            ++ [⟨initialUsers.length + 1, "Alice Clone", "alice@example.com", "customer"⟩]) :=
  ⟨by decide, by decide, by decide,
   ministore_create_id_from_length "Alice Clone" "alice@example.com" none initialUsers
     (by decide) (by decide)⟩

open MiniStore in
/-- Claim C10: in the Mini Online Store, GET /users/:id with a route
parameter that does not parse via parseInt to the id of a stored user —
non-numeric strings parse to NaN and match nothing — answers 404 with
success false and a message; and for every parameter and every array the
handler only ever answers 200 or 404, never 500 and never by throwing. -/
theorem ministore_get_unknown_id_404 (idParam : String) (users : List MUser)
    (h : ∀ n, parseIntJs idParam = some n → ∀ u ∈ users, ¬ ((u.id : Int) = n)) :
    (getUserById idParam users).status = 404 ∧
    (getUserById idParam users).success = false ∧
    ((getUserById idParam users).message).isSome = true ∧
    (∀ (q : String) (us : List MUser),
      (getUserById q us).status = 200 ∨ (getUserById q us).status = 404) := by
  have key : (getUserById idParam users).status = 404 ∧
      (getUserById idParam users).success = false ∧
      ((getUserById idParam users).message).isSome = true := by
    rcases hp : parseIntJs idParam with _ | m
    · simp [getUserById, hp]
    · have hfind : users.find? (fun u => (u.id : Int) == m) = none :=
        List.find?_eq_none.mpr (fun u hu => by simpa using h m hp u hu)
      simp [getUserById, hp, hfind]
  refine ⟨key.1, key.2.1, key.2.2, ?_⟩
  intro q us
  rcases hq : parseIntJs q with _ | m
  · right; simp [getUserById, hq]
  · rcases hf : us.find? (fun u => (u.id : Int) == m) with _ | u
    · right; simp [getUserById, hq, hf]
    · left; simp [getUserById, hq, hf]

open MiniStore in
/-- Claim C10, witness: the parameter 99 parses to an integer matching no
seeded user and is answered 404 with success false and a message. -/
theorem ministore_get_unknown_id_404_witness :
    (∀ n, parseIntJs "99" = some n → ∀ u ∈ initialUsers, ¬ ((u.id : Int) = n)) ∧
    ((getUserById "99" initialUsers).status = 404 ∧
     (getUserById "99" initialUsers).success = false ∧
     ((getUserById "99" initialUsers).message).isSome = true ∧
     (∀ (q : String) (us : List MUser),
       (getUserById q us).status = 200 ∨ (getUserById q us).status = 404)) :=
  have h : ∀ n, parseIntJs "99" = some n → ∀ u ∈ initialUsers, ¬ ((u.id : Int) = n) := by
    intro n hn
    have h99 : parseIntJs "99" = some 99 := by decide
    rw [h99] at hn
    injection hn with h2
    subst h2
    decide
  ⟨h, ministore_get_unknown_id_404 "99" initialUsers h⟩
